import Mathlib

/-!
Verification of the SR Linux node driver (`nodes/srl/srl.go`) of containerlab.

The Go code is shallowly embedded: the per-node configuration record is a
Lean structure, Go string maps are association lists read through
`List.lookup` (a map write is a shadowing insert at the front), byte slices
are `String`s, collaborator calls (container runtime exec, certificate
authority, filesystem probes) are parameters supplying the collaborator's
results, and fallible functions return `Except`.  Wall-clock time in the
readiness poller is abstracted to one tick per poll iteration (the fixed
`retryTimer` sleep), so a context deadline becomes a fuel bound on the
number of iterations.
-/

set_option maxRecDepth 20000

/-! ### Generic list/string helpers (substring containment, Go `bytes.Contains`) -/

/-- Boolean prefix test on character lists. -/
def isPre : List Char → List Char → Bool
  | [], _ => true
  | _ :: _, [] => false
  | a :: as, b :: bs => a == b && isPre as bs

/-- Boolean substring containment on character lists: does `hay` contain
`pat` as a contiguous sublist? -/
def containsSubB (pat : List Char) : List Char → Bool
  | [] => pat.isEmpty
  | c :: hay => isPre pat (c :: hay) || containsSubB pat hay

/-- Go `strings.Contains` / `bytes.Contains`: `s` contains the substring `sub`. -/
def containsStr (s sub : String) : Bool := containsSubB sub.data s.data

theorem str_data_append (s t : String) : (s ++ t).data = s.data ++ t.data := by
  cases s; cases t; rfl

theorem isPre_iff (p : List Char) : ∀ l : List Char, isPre p l = true ↔ ∃ t, l = p ++ t := by
  induction p with
  | nil => intro l; simp [isPre]
  | cons a as ih =>
    intro l
    cases l with
    | nil => simp [isPre]
    | cons b bs =>
      simp only [isPre, Bool.and_eq_true, beq_iff_eq, ih bs]
      constructor
      · rintro ⟨rfl, t, rfl⟩; exact ⟨t, rfl⟩
      · rintro ⟨t, heq⟩
        injection heq with h1 h2
        exact ⟨h1.symm, t, h2⟩

theorem containsSubB_iff (pat : List Char) :
    ∀ hay : List Char, containsSubB pat hay = true ↔ ∃ s t, hay = s ++ (pat ++ t) := by
  intro hay
  induction hay with
  | nil =>
    simp only [containsSubB, List.isEmpty_iff]
    constructor
    · rintro rfl; exact ⟨[], [], rfl⟩
    · rintro ⟨s, t, heq⟩
      rcases List.append_eq_nil.mp heq.symm with ⟨rfl, h2⟩
      rcases List.append_eq_nil.mp h2 with ⟨rfl, rfl⟩
      rfl
  | cons c hay ih =>
    simp only [containsSubB, Bool.or_eq_true, isPre_iff, ih]
    constructor
    · rintro (⟨t, heq⟩ | ⟨s, t, heq⟩)
      · exact ⟨[], t, by simpa using heq⟩
      · exact ⟨c :: s, t, by simp [heq]⟩
    · rintro ⟨s, t, heq⟩
      cases s with
      | nil => exact Or.inl ⟨t, by simpa using heq⟩
      | cons s0 s' =>
        injection heq with h1 h2
        exact Or.inr ⟨s', t, h2⟩

theorem contains_append_left (pat a b : List Char) (h : containsSubB pat a = true) :
    containsSubB pat (a ++ b) = true := by
  rcases (containsSubB_iff pat a).mp h with ⟨s, t, rfl⟩
  exact (containsSubB_iff pat _).mpr ⟨s, t ++ b, by simp⟩

theorem contains_append_right (pat a b : List Char) (h : containsSubB pat b = true) :
    containsSubB pat (a ++ b) = true := by
  rcases (containsSubB_iff pat b).mp h with ⟨s, t, rfl⟩
  exact (containsSubB_iff pat _).mpr ⟨a ++ s, t, by simp⟩

theorem append_split {α : Type} (w x y z : List α) (h : w ++ x = y ++ z) :
    (∃ m, y = w ++ m ∧ x = m ++ z) ∨ (∃ m, w = y ++ m ∧ z = m ++ x) := by
  induction w generalizing y with
  | nil => exact Or.inl ⟨y, rfl, h⟩
  | cons c w' ih =>
    cases y with
    | nil => exact Or.inr ⟨c :: w', rfl, by simpa using h.symm⟩
    | cons c' y' =>
      injection h with h1 h2
      rcases ih y' h2 with ⟨m, hm1, hm2⟩ | ⟨m, hm1, hm2⟩
      · exact Or.inl ⟨m, by rw [hm1, h1]; rfl, hm2⟩
      · exact Or.inr ⟨m, by rw [hm1, h1]; rfl, hm2⟩

theorem contains_split_core (pat a b : List Char) (h : containsSubB pat (a ++ b) = true) :
    containsSubB pat a = true ∨ containsSubB pat b = true ∨
      ∃ m n, pat = m ++ n ∧ m ≠ [] ∧ n ≠ [] ∧ (∃ u, a = u ++ m) ∧ (∃ v, b = n ++ v) := by
  rcases (containsSubB_iff pat (a ++ b)).mp h with ⟨s, t, heq⟩
  rcases append_split a b s (pat ++ t) heq with ⟨m, hm1, hm2⟩ | ⟨m, hm1, hm2⟩
  · exact Or.inr (Or.inl ((containsSubB_iff pat b).mpr ⟨m, t, hm2⟩))
  · rcases append_split pat t m b hm2 with ⟨n, hn1, hn2⟩ | ⟨n, hn1, hn2⟩
    · -- m = pat ++ n : the pattern sits inside a
      refine Or.inl ((containsSubB_iff pat a).mpr ⟨s, n, ?_⟩)
      rw [hm1, hn1]
    · -- pat = m ++ n, b = n ++ t
      rcases eq_or_ne m [] with rfl | hm
      · refine Or.inr (Or.inl ((containsSubB_iff pat b).mpr ⟨[], t, ?_⟩))
        simp only [List.nil_append] at hn1
        simp [hn2, ← hn1]
      · rcases eq_or_ne n [] with rfl | hn
        · refine Or.inl ((containsSubB_iff pat a).mpr ⟨s, [], ?_⟩)
          simp only [List.append_nil] at hn1 ⊢
          rw [hm1, ← hn1]
        · exact Or.inr (Or.inr ⟨m, n, hn1, hm, hn, ⟨s, hm1⟩, ⟨t, hn2⟩⟩)

theorem head?_append_ne {α : Type} (q v : List α) (h : q ≠ []) :
    (q ++ v).head? = q.head? := by
  cases q with
  | nil => exact absurd rfl h
  | cons x xs => rfl

theorem mem_of_head? {α : Type} {l : List α} {c : α} (h : l.head? = some c) : c ∈ l := by
  cases l with
  | nil => simp at h
  | cons x xs =>
    simp only [List.head?_cons, Option.some.injEq] at h
    rw [← h]; exact List.mem_cons_self x xs

/-- Splitting substring containment over an append whose right part starts
with a character not occurring in the pattern: the pattern cannot span the
boundary. -/
theorem contains_split_head (pat a b : List Char) (c : Char) (hc : c ∉ pat)
    (hb : b.head? = some c) (h : containsSubB pat (a ++ b) = true) :
    containsSubB pat a = true ∨ containsSubB pat b = true := by
  rcases contains_split_core pat a b h with h1 | h1 | ⟨m, n, hpat, _, hn, _, ⟨v, hv⟩⟩
  · exact Or.inl h1
  · exact Or.inr h1
  · exfalso
    apply hc
    rw [hv, head?_append_ne n v hn] at hb
    rw [hpat]
    exact List.mem_append.mpr (Or.inr (mem_of_head? hb))

/-- Splitting substring containment over an append whose left part ends with
a character not occurring in the pattern: the pattern cannot span the
boundary. -/
theorem contains_split_last (pat a b : List Char) (c : Char) (hc : c ∉ pat)
    (ha : a.reverse.head? = some c) (h : containsSubB pat (a ++ b) = true) :
    containsSubB pat a = true ∨ containsSubB pat b = true := by
  rcases contains_split_core pat a b h with h1 | h1 | ⟨m, n, hpat, hm, _, ⟨u, hu⟩, _⟩
  · exact Or.inl h1
  · exact Or.inr h1
  · exfalso
    apply hc
    have hmr : m.reverse ≠ [] := by simpa using hm
    rw [hu, List.reverse_append, head?_append_ne _ _ hmr] at ha
    rw [hpat]
    exact List.mem_append.mpr (Or.inl (List.mem_reverse.mp (mem_of_head? ha)))

/-! ### Data model: per-node configuration (`types.NodeConfig`, fields used by srl.go) -/

/-- The fields of `types.NodeConfig` that `nodes/srl/srl.go` reads or
writes.  Go string maps (`Env`, `Sysctls`) are association lists read with
`List.lookup`; a Go map write `m[k] = v` is a shadowing insert at the
front. -/
structure NodeConfig where
  ShortName : String
  LongName : String
  Fqdn : String
  LabDir : String
  NodeType : String
  Image : String
  Cmd : String
  User : String
  License : String
  StartupConfig : String
  Env : List (String × String)
  Sysctls : List (String × String)
  Binds : List String
  TLSCert : String
  TLSKey : String
  TLSAnchor : String
  SRLAgents : List String
deriving DecidableEq, Repr

/-- A Go map write `m[k] = v`, under the `List.lookup` reading of maps:
the new binding shadows any earlier one. -/
def mapSet (m : List (String × String)) (k v : String) : List (String × String) :=
  (k, v) :: m

/-- Modelled from the spec: `utils.MergeStringMaps` (the utils package is
not part of this repository's sources) merges the default environment with
the user environment; the second argument's entries win for shared keys. -/
def mergeStringMaps (m1 m2 : List (String × String)) : List (String × String) :=
  m2 ++ m1

/-- `filepath.Join` restricted to the simple two-segment joins srl.go uses. -/
def joinPath (a b : String) : String := a ++ "/" ++ b

/-! ### Constants of srl.go -/

def srlDefaultType : String := "ixrd2"

/-- `readyTimeout = time.Minute * 2`, in seconds (= poll ticks, since
`retryTimer` is one second). -/
def readyTimeout : Nat := 120

/-- `retryTimer = time.Second`, in seconds. -/
def retryTimer : Nat := 1

/-- `srlSysctl`: the kind's fixed default sysctl set (source order). -/
def srlSysctl : List (String × String) :=
  [("net.ipv4.ip_forward", "0"),
   ("net.ipv6.conf.all.disable_ipv6", "0"),
   ("net.ipv6.conf.all.accept_dad", "0"),
   ("net.ipv6.conf.default.accept_dad", "0"),
   ("net.ipv6.conf.all.autoconf", "0"),
   ("net.ipv6.conf.default.autoconf", "0")]

/-- `srlTypes`: supported node types and their topology descriptor files. -/
def srlTypes : List (String × String) :=
  [("ixr6", "7250IXR6.yml"),
   ("ixr10", "7250IXR10.yml"),
   ("ixrd1", "7220IXRD1.yml"),
   ("ixrd2", "7220IXRD2.yml"),
   ("ixrd3", "7220IXRD3.yml"),
   ("ixrh2", "7220IXRH2.yml"),
   ("ixrh3", "7220IXRH3.yml")]

/-- The supported-type names (`keys` collected from `srlTypes` in `Init`). -/
def srlTypesKeys : List String := srlTypes.map Prod.fst

def srlEnv : List (String × String) := [("SRLINUX", "1")]

def saveCmd : List String := ["sr_cli", "-d", "tools", "system", "configuration", "save"]

/-- `shlex.Split` of the first readiness introspection command. -/
def mgmtServerRdyCmd : List String :=
  ["sr_cli", "-d", "info", "from", "state", "system", "app-management",
   "application", "mgmt_server", "state", "|", "grep", "running"]

/-- `shlex.Split` of the second readiness introspection command. -/
def commitCompleteCmd : List String :=
  ["sr_cli", "-d", "info", "from", "state", "system", "configuration",
   "commit", "1", "status", "|", "grep", "complete"]

/-! ### Init -/

/-- `(*srl).Init`: validate/normalize the node configuration in place.
The only failure is an unsupported node type. -/
def Init (cfg : NodeConfig) : Except String NodeConfig :=
  let cfg := if cfg.NodeType = "" then { cfg with NodeType := srlDefaultType } else cfg
  match List.lookup cfg.NodeType srlTypes with
  | none =>
      Except.error ("wrong node type. '" ++ cfg.NodeType ++
        "' doesn't exist. should be any of " ++ String.intercalate ", " srlTypesKeys)
  | some _ =>
      Except.ok { cfg with
        Cmd := "sudo bash -c 'touch /.dockerenv && /opt/srlinux/bin/sr_linux'"
        Env := mergeStringMaps srlEnv cfg.Env
        User := if cfg.User = "" then "0:0" else cfg.User
        Sysctls := srlSysctl.foldl (fun m kv => mapSet m kv.1 kv.2) cfg.Sysctls
        Binds :=
          (if cfg.License ≠ "" then
            cfg.Binds ++ [joinPath cfg.LabDir "license.key" ++ ":/opt/srlinux/etc/license.key:ro"]
          else cfg.Binds) ++
          [joinPath cfg.LabDir "config" ++ ":/etc/opt/srlinux/:rw",
           joinPath cfg.LabDir "topology.yml" ++ ":/tmp/topology.yml:ro"] }

/-! ### SaveConfig -/

structure ExecResult where
  stdout : String
  stderr : String
  err : Bool
deriving DecidableEq, Repr

inductive SaveErr where
  | execFailed (shortName : String)
  | remoteCommandFailed (shortName stderrText : String)
deriving DecidableEq, Repr

/-- `(*srl).SaveConfig`: run `saveCmd` in the container; `r` is the
collaborator's result for that exec.  A non-empty error stream fails the
call even when the collaborator reported no error. -/
def SaveConfig (cfg : NodeConfig) (r : ExecResult) : Except SaveErr Unit :=
  if r.err then Except.error (SaveErr.execFailed cfg.ShortName)
  else if r.stderr ≠ "" then
    Except.error (SaveErr.remoteCommandFailed cfg.ShortName r.stderr)
  else Except.ok ()

/-! ### Generic lemmas about shadowing map updates -/

theorem foldl_mapSet_not_mem (l : List (String × String)) (m : List (String × String))
    (k : String) (h : k ∉ l.map Prod.fst) :
    List.lookup k (l.foldl (fun m kv => mapSet m kv.1 kv.2) m) = List.lookup k m := by
  induction l generalizing m with
  | nil => rfl
  | cons kv rest ih =>
    simp only [List.map_cons, List.mem_cons, not_or] at h
    rw [List.foldl_cons, ih _ h.2]
    simp [mapSet, List.lookup, beq_eq_false_iff_ne.mpr h.1]

theorem foldl_mapSet_mem (l : List (String × String)) (m : List (String × String))
    (k v : String) (hnd : (l.map Prod.fst).Nodup) (h : (k, v) ∈ l) :
    List.lookup k (l.foldl (fun m kv => mapSet m kv.1 kv.2) m) = some v := by
  induction l generalizing m with
  | nil => simp at h
  | cons kv rest ih =>
    simp only [List.map_cons, List.nodup_cons] at hnd
    rcases List.mem_cons.mp h with heq | hmem
    · subst heq
      rw [List.foldl_cons, foldl_mapSet_not_mem rest _ k hnd.1]
      simp [mapSet, List.lookup]
    · exact List.foldl_cons _ _ ▸ ih _ hnd.2 hmem

/-! ### Ready: the bounded readiness poll loop -/

inductive ReadyErr where
  | timeout
deriving DecidableEq, Repr

/-- One loop iteration of `(*srl).Ready` succeeds when the first
introspection command returns no error, an empty error stream and output
containing `running`, and then the second returns no error, an empty error
stream and output containing `complete`.  (The second command only runs
when the first passed; the short-circuiting `&&` mirrors that.) -/
def readyIterOk (r1 r2 : ExecResult) : Bool :=
  !r1.err && (r1.stderr == "") && containsStr r1.stdout "running" &&
  !r2.err && (r2.stderr == "") && containsStr r2.stdout "complete"

/-- The poll loop: `fuel` remaining ticks of the derived context (checked at
the top of every iteration, as the `select` on `ctx.Done()` is), `i` the
iteration index; `oracle i` gives the collaborator's results for the two
introspection execs of iteration `i`.  A failed iteration sleeps one
`retryTimer` tick and retries. -/
def readyLoop (oracle : Nat → ExecResult × ExecResult) : Nat → Nat → Except ReadyErr Unit
  | 0, _ => Except.error ReadyErr.timeout
  | fuel + 1, i =>
      if readyIterOk (oracle i).1 (oracle i).2 = true then Except.ok ()
      else readyLoop oracle fuel (i + 1)

/-- Remaining budget of the context `Ready` derives with
`context.WithTimeout(ctx, readyTimeout)`: the caller's remaining budget
(`none` = no deadline) capped by the two-minute ceiling. -/
def readyBudget (caller : Option Nat) : Nat :=
  match caller with
  | none => readyTimeout
  | some d => min d readyTimeout

/-- `(*srl).Ready`: poll until both introspection commands report their
markers, failing only when the derived bounded context expires. -/
def Ready (caller : Option Nat) (oracle : Nat → ExecResult × ExecResult) :
    Except ReadyErr Unit :=
  readyLoop oracle (readyBudget caller) 0

theorem readyLoop_ok_iff (oracle : Nat → ExecResult × ExecResult) :
    ∀ fuel i : Nat,
      (readyLoop oracle fuel i = Except.ok () ↔
        ∃ j, j < fuel ∧ readyIterOk (oracle (i + j)).1 (oracle (i + j)).2 = true) := by
  intro fuel
  induction fuel with
  | zero => intro i; simp [readyLoop]
  | succ fuel ih =>
    intro i
    by_cases hg : readyIterOk (oracle i).1 (oracle i).2 = true
    · rw [readyLoop, if_pos hg]
      constructor
      · intro _; exact ⟨0, Nat.succ_pos fuel, by simpa using hg⟩
      · intro _; rfl
    · rw [readyLoop, if_neg hg, ih (i + 1)]
      constructor
      · rintro ⟨j, hj, hgood⟩
        refine ⟨j + 1, by omega, ?_⟩
        have harith : i + 1 + j = i + (j + 1) := by omega
        rwa [harith] at hgood
      · rintro ⟨j, hj, hgood⟩
        cases j with
        | zero => rw [Nat.add_zero] at hgood; exact absurd hgood hg
        | succ j =>
          refine ⟨j, by omega, ?_⟩
          have harith : i + (j + 1) = i + 1 + j := by omega
          rwa [harith] at hgood

theorem readyLoop_dichotomy (oracle : Nat → ExecResult × ExecResult) :
    ∀ fuel i : Nat,
      readyLoop oracle fuel i = Except.ok () ∨
      readyLoop oracle fuel i = Except.error ReadyErr.timeout := by
  intro fuel
  induction fuel with
  | zero => intro i; exact Or.inr rfl
  | succ fuel ih =>
    intro i
    by_cases hg : readyIterOk (oracle i).1 (oracle i).2 = true
    · rw [readyLoop, if_pos hg]; exact Or.inl rfl
    · rw [readyLoop, if_neg hg]; exact ih (i + 1)

/-! ### The default bootstrap command template (`srlConfigCmdsTpl`) -/

/-- The result of `srlCfgTpl.Execute(buf, s.cfg)`: the fixed
`srlConfigCmdsTpl` template of srl.go rendered with the node config.
`{{ .TLSKey }}`, `{{ .TLSCert }}` and `{{ .TLSAnchor }}` substitute the
corresponding fields; `{{- if .TLSAnchor }}` takes the first branch exactly
when the field is non-empty, and the `{{-` markers trim the newline that
precedes each action, as Go `text/template` does. -/
def srlConfigCmdsRendered (cfg : NodeConfig) : String :=
  "set / system tls server-profile clab-profile\n" ++
  "set / system tls server-profile clab-profile key \"" ++ cfg.TLSKey ++ "\"\n" ++
  "set / system tls server-profile clab-profile certificate \"" ++ cfg.TLSCert ++ "\"" ++
  (if cfg.TLSAnchor ≠ "" then
    "\nset / system tls server-profile clab-profile authenticate-client true\n" ++
    "set / system tls server-profile clab-profile trust-anchor \"" ++ cfg.TLSAnchor ++ "\""
  else
    "\nset / system tls server-profile clab-profile authenticate-client false") ++
  "\nset / system gnmi-server admin-state enable network-instance mgmt admin-state enable tls-profile clab-profile\n" ++
  "set / system json-rpc-server admin-state enable network-instance mgmt http admin-state enable\n" ++
  "set / system json-rpc-server admin-state enable network-instance mgmt https admin-state enable tls-profile clab-profile\n" ++
  "set / system lldp admin-state enable\n" ++
  "set / system aaa authentication idle-timeout 7200\n" ++
  "commit save"

/-! ### addDefaultConfig and PostDeploy -/

inductive PostErr where
  | readyTimeout
  | execErr
deriving DecidableEq, Repr

/-- The first exec of `addDefaultConfig`: transfer the rendered text into
the container through a shell redirection. -/
def bootstrapWriteCmd (cfg : NodeConfig) : List String :=
  ["bash", "-c", "echo '" ++ srlConfigCmdsRendered cfg ++ "' > /tmp/clab-config"]

/-- The second exec of `addDefaultConfig`: apply the transferred
configuration with the node's native configuration-apply command. -/
def bootstrapApplyCmd : List String :=
  ["bash", "-c", "sr_cli -ed < tmp/clab-config"]

/-- `(*srl).addDefaultConfig`: wait for readiness, then transfer the
rendered bootstrap text and apply it.  `r1`/`r2` are the collaborator's
results for the two execs; the second component of the result lists the
bootstrap exec commands actually issued.  (Failures of the apply command
are only logged: a non-`err` apply result is a success regardless of its
streams.) -/
def addDefaultConfig (cfg : NodeConfig) (caller : Option Nat)
    (oracle : Nat → ExecResult × ExecResult) (r1 r2 : ExecResult) :
    Except PostErr Unit × List (List String) :=
  match Ready caller oracle with
  | Except.error _ => (Except.error PostErr.readyTimeout, [])
  | Except.ok _ =>
      if r1.err then (Except.error PostErr.execErr, [bootstrapWriteCmd cfg])
      else if r2.err then (Except.error PostErr.execErr, [bootstrapWriteCmd cfg, bootstrapApplyCmd])
      else (Except.ok (), [bootstrapWriteCmd cfg, bootstrapApplyCmd])

/-- `(*srl).PostDeploy`: skip all provisioning when a startup config was
supplied or a persisted `config/config.json` already exists in the lab
directory (`configJsonOnDisk` is `utils.FileExists`'s answer for that
path); otherwise run the default bootstrap path. -/
def PostDeploy (cfg : NodeConfig) (configJsonOnDisk : Bool) (caller : Option Nat)
    (oracle : Nat → ExecResult × ExecResult) (r1 r2 : ExecResult) :
    Except PostErr Unit × List (List String) :=
  if cfg.StartupConfig ≠ "" ∨ configJsonOnDisk = true then (Except.ok (), [])
  else addDefaultConfig cfg caller oracle r1 r2

/-! ### PreDeploy -/

/-- Certificate material (`cert.Certificates`), byte slices as strings. -/
structure Certs where
  Cert : String
  Key : String
  Csr : String
deriving DecidableEq, Repr

inductive PreDeployErr where
  | files (msg : String)
deriving DecidableEq, Repr

/-- `(*srl).PreDeploy`.  `retrieve` and `generate` are the Go-style
(value, error) results of `cert.RetrieveNodeCertData` and
`cert.GenerateCert`; when retrieval fails the generation result's value is
used whether or not generation reported an error (the error is only
logged), so a failed generation leaves the possibly zero-value certificate
fields in the config.  `filesErr` is the first error of the subsequent
agent-file copying / `createSRLFiles` steps (`none` when they succeed).
The second component is the config as mutated in place. -/
def PreDeploy (cfg : NodeConfig) (retrieve generate : Certs × Option String)
    (filesErr : Option String) : Except PreDeployErr Unit × NodeConfig :=
  let nodeCerts :=
    match retrieve.2 with
    | none => retrieve.1
    | some _ => generate.1
  let cfg := { cfg with TLSCert := nodeCerts.Cert, TLSKey := nodeCerts.Key }
  match filesErr with
  | some m => (Except.error (PreDeployErr.files m), cfg)
  | none => (Except.ok (), cfg)

/-! ### generateSRLTopologyFile: the randomized base MAC -/

/-- One lowercase hex digit. -/
def hexDigit (n : Nat) : Char :=
  if n < 10 then Char.ofNat ('0'.toNat + n) else Char.ofNat ('a'.toNat + (n - 10))

/-- Go `%02x` for a byte value: two lowercase hex digits, zero padded. -/
def hex2 (n : Nat) : String :=
  ⟨[hexDigit (n / 16), hexDigit (n % 16)]⟩

/-- The base MAC `generateSRLTopologyFile` renders into the topology
descriptor: `fmt.Sprintf("02:%02x:%02x:00:00:00", buf[0], buf[1])`, where
`buf` holds the two bytes drawn from `crypto/rand`. -/
def srlMacString (b0 b1 : Nat) : String :=
  "02:" ++ hex2 b0 ++ ":" ++ hex2 b1 ++ ":00:00:00"

/-! ### Shell redirection path extraction (for the transfer/apply protocol) -/

/-- The suffix of `l` after the last occurrence of `c` (all of `l` if `c`
does not occur). -/
def afterLast (c : Char) (l : List Char) : List Char :=
  (l.reverse.takeWhile (fun x => x != c)).reverse

/-- The target path of a trailing shell output redirection `... > path`. -/
def redirTarget (s : String) : String :=
  ⟨(afterLast '>' s.data).dropWhile (fun x => x == ' ')⟩

/-- The source path of a trailing shell input redirection `... < path`. -/
def redirSource (s : String) : String :=
  ⟨(afterLast '<' s.data).dropWhile (fun x => x == ' ')⟩

/-! ### A base configuration for concrete witnesses -/

def emptyCfg : NodeConfig :=
  { ShortName := "", LongName := "", Fqdn := "", LabDir := "", NodeType := "", Image := "",
    Cmd := "", User := "", License := "", StartupConfig := "", Env := [], Sysctls := [],
    Binds := [], TLSCert := "", TLSKey := "", TLSAnchor := "", SRLAgents := [] }

/-! ### Shape of a successful Init -/

theorem Init_ok_shape (cfg cfg2 : NodeConfig) (h : Init cfg = Except.ok cfg2) :
    ∃ cfgA : NodeConfig,
      cfgA = (if cfg.NodeType = "" then { cfg with NodeType := srlDefaultType } else cfg) ∧
      cfg2 = { cfgA with
        Cmd := "sudo bash -c 'touch /.dockerenv && /opt/srlinux/bin/sr_linux'"
        Env := mergeStringMaps srlEnv cfgA.Env
        User := if cfgA.User = "" then "0:0" else cfgA.User
        Sysctls := srlSysctl.foldl (fun m kv => mapSet m kv.1 kv.2) cfgA.Sysctls
        Binds :=
          (if cfgA.License ≠ "" then
            cfgA.Binds ++ [joinPath cfgA.LabDir "license.key" ++ ":/opt/srlinux/etc/license.key:ro"]
          else cfgA.Binds) ++
          [joinPath cfgA.LabDir "config" ++ ":/etc/opt/srlinux/:rw",
           joinPath cfgA.LabDir "topology.yml" ++ ":/tmp/topology.yml:ro"] } := by
  simp only [Init] at h
  set cfgA := (if cfg.NodeType = "" then { cfg with NodeType := srlDefaultType } else cfg)
    with hA
  cases hl : List.lookup cfgA.NodeType srlTypes with
  | none => rw [hl] at h; exact absurd h (by simp)
  | some yml =>
    rw [hl] at h
    simp only [Except.ok.injEq] at h
    exact ⟨cfgA, rfl, h.symm⟩

/-- C6: after a successful `Init`, every key of the kind's fixed default
sysctl set `srlSysctl` is present in the config's sysctl mapping with the
fixed default value — also when the user-supplied mapping bound the same
key to a different value, since the defaults are written over the user
mapping, not the reverse. -/
theorem Init_sysctl_defaults (cfg cfg2 : NodeConfig) (h : Init cfg = Except.ok cfg2)
    (k v : String) (hkv : (k, v) ∈ srlSysctl) :
    List.lookup k cfg2.Sysctls = some v := by
  obtain ⟨cfgA, _, rfl⟩ := Init_ok_shape cfg cfg2 h
  show List.lookup k (srlSysctl.foldl (fun m kv => mapSet m kv.1 kv.2) cfgA.Sysctls) = some v
  exact foldl_mapSet_mem _ _ _ _ (by decide) hkv

/-- Witness for C6 at a concrete config whose user sysctls bind
`net.ipv4.ip_forward` to `"1"`: after `Init` the lookup yields the fixed
default `"0"`. -/
def cfgSysW : NodeConfig :=
  { emptyCfg with NodeType := "ixrd2", Sysctls := [("net.ipv4.ip_forward", "1")] }

def cfgSysW2 : NodeConfig :=
  { cfgSysW with
    Cmd := "sudo bash -c 'touch /.dockerenv && /opt/srlinux/bin/sr_linux'"
    Env := mergeStringMaps srlEnv cfgSysW.Env
    User := "0:0"
    Sysctls := srlSysctl.foldl (fun m kv => mapSet m kv.1 kv.2) cfgSysW.Sysctls
    Binds := [joinPath "" "config" ++ ":/etc/opt/srlinux/:rw",
              joinPath "" "topology.yml" ++ ":/tmp/topology.yml:ro"] }

theorem Init_sysctl_defaults_witness :
    List.lookup "net.ipv4.ip_forward" cfgSysW2.Sysctls = some "0" := by
  have h : Init cfgSysW = Except.ok cfgSysW2 := rfl
  exact Init_sysctl_defaults _ _ h "net.ipv4.ip_forward" "0" (by decide)

/-- C10: a successful `Init` unconditionally overwrites the entrypoint
command field with the fixed SR Linux launch command, discarding any
user-supplied entrypoint, and sets the user field to `0:0` exactly when it
was empty. -/
theorem Init_cmd_and_user (cfg cfg2 : NodeConfig) (h : Init cfg = Except.ok cfg2) :
    cfg2.Cmd = "sudo bash -c 'touch /.dockerenv && /opt/srlinux/bin/sr_linux'" ∧
    (cfg.User = "" → cfg2.User = "0:0") ∧
    (cfg.User ≠ "" → cfg2.User = cfg.User) := by
  obtain ⟨cfgA, hA, rfl⟩ := Init_ok_shape cfg cfg2 h
  have hUser : cfgA.User = cfg.User := by rw [hA]; split <;> rfl
  refine ⟨rfl, ?_, ?_⟩
  · intro hu
    show (if cfgA.User = "" then "0:0" else cfgA.User) = "0:0"
    rw [hUser, if_pos hu]
  · intro hu
    show (if cfgA.User = "" then "0:0" else cfgA.User) = cfg.User
    rw [hUser, if_neg hu]

def cfgCmdW : NodeConfig :=
  { emptyCfg with NodeType := "ixr6", Cmd := "my-entrypoint" }

def cfgCmdW2 : NodeConfig :=
  { cfgCmdW with
    Cmd := "sudo bash -c 'touch /.dockerenv && /opt/srlinux/bin/sr_linux'"
    Env := mergeStringMaps srlEnv cfgCmdW.Env
    User := "0:0"
    Sysctls := srlSysctl.foldl (fun m kv => mapSet m kv.1 kv.2) cfgCmdW.Sysctls
    Binds := [joinPath "" "config" ++ ":/etc/opt/srlinux/:rw",
              joinPath "" "topology.yml" ++ ":/tmp/topology.yml:ro"] }

/-- Witness for C10: a config with a user-supplied entrypoint command and
empty user field. -/
theorem Init_cmd_and_user_witness :
    ∃ cfg2 : NodeConfig,
      Init cfgCmdW = Except.ok cfg2 ∧
      cfg2.Cmd = "sudo bash -c 'touch /.dockerenv && /opt/srlinux/bin/sr_linux'" ∧
      cfg2.User = "0:0" := by
  have h : Init cfgCmdW = Except.ok cfgCmdW2 := rfl
  refine ⟨_, h, (Init_cmd_and_user _ _ h).1, (Init_cmd_and_user _ _ h).2.1 rfl⟩

/-- C5: `Init` with a non-empty unsupported node type fails with an error
whose message embeds the enumeration of supported types, each listed
exactly once; with an empty type it succeeds and substitutes the default
type. -/
theorem Init_type_validation (cfg : NodeConfig) :
    (cfg.NodeType ≠ "" → List.lookup cfg.NodeType srlTypes = none →
      Init cfg = Except.error ("wrong node type. '" ++ cfg.NodeType ++
          "' doesn't exist. should be any of " ++ String.intercalate ", " srlTypesKeys) ∧
      (∀ k, k ∈ srlTypesKeys → srlTypesKeys.count k = 1) ∧
      srlTypesKeys = srlTypes.map Prod.fst) ∧
    (cfg.NodeType = "" →
      ∃ cfg2, Init cfg = Except.ok cfg2 ∧ cfg2.NodeType = srlDefaultType) := by
  constructor
  · intro h1 h2
    refine ⟨?_, by decide, rfl⟩
    simp only [Init]
    rw [if_neg h1, h2]
  · intro h1
    obtain ⟨sn, ln, fq, ld, nt, im, cm, us, li, sc, en, sy, bi, tc, tk, ta, ag⟩ := cfg
    have h1' : nt = "" := h1
    subst h1'
    exact ⟨_, rfl, rfl⟩

/-- Witness for C5: the unsupported type `"foo"` and the empty type. -/
theorem Init_type_validation_witness :
    Init { emptyCfg with NodeType := "foo" } = Except.error
      ("wrong node type. '" ++ "foo" ++ "' doesn't exist. should be any of " ++
        String.intercalate ", " srlTypesKeys) ∧
    ∃ cfg2, Init emptyCfg = Except.ok cfg2 ∧ cfg2.NodeType = srlDefaultType := by
  refine ⟨((Init_type_validation { emptyCfg with NodeType := "foo" }).1
    (by decide) (by decide)).1, (Init_type_validation emptyCfg).2 rfl⟩

/-- C3: `SaveConfig` fails with the distinct error-stream error whenever
the collaborator's error stream is non-empty even though the collaborator
reported no error, and succeeds exactly when the exec reported no error and
the error stream is empty. -/
theorem SaveConfig_stderr_authoritative (cfg : NodeConfig) (r : ExecResult) :
    (r.err = false → r.stderr ≠ "" →
      SaveConfig cfg r = Except.error (SaveErr.remoteCommandFailed cfg.ShortName r.stderr)) ∧
    (SaveConfig cfg r = Except.ok () ↔ r.err = false ∧ r.stderr = "") := by
  refine ⟨fun he hs => by simp [SaveConfig, he, hs], ?_⟩
  cases hr : r.err <;> by_cases hs : r.stderr = "" <;> simp [SaveConfig, hr, hs]

/-- Witness for C3: exec succeeded but wrote `"boom"` to its error stream. -/
theorem SaveConfig_stderr_authoritative_witness :
    SaveConfig { emptyCfg with ShortName := "srl1" } ⟨"", "boom", false⟩ =
      Except.error (SaveErr.remoteCommandFailed "srl1" "boom") :=
  (SaveConfig_stderr_authoritative { emptyCfg with ShortName := "srl1" }
    ⟨"", "boom", false⟩).1 rfl (by decide)

/-- C4: when certificate retrieval fails and the subsequent generation also
fails, `PreDeploy` does not return the generation error — the config's TLS
certificate and key fields are populated from the (possibly zero-value)
generation result, `PreDeploy` succeeds whenever the remaining file steps
succeed, and any error it can return is a file-step error, never a
certificate error. -/
theorem PreDeploy_swallows_generate_error (cfg : NodeConfig)
    (retrieve generate : Certs × Option String) (filesErr : Option String)
    (e eg : String) (hr : retrieve.2 = some e) (_hg : generate.2 = some eg) :
    (PreDeploy cfg retrieve generate filesErr).2.TLSCert = generate.1.Cert ∧
    (PreDeploy cfg retrieve generate filesErr).2.TLSKey = generate.1.Key ∧
    (filesErr = none → (PreDeploy cfg retrieve generate filesErr).1 = Except.ok ()) ∧
    (∀ err, (PreDeploy cfg retrieve generate filesErr).1 = Except.error err →
      ∃ m, err = PreDeployErr.files m) := by
  cases filesErr with
  | none =>
    refine ⟨by simp [PreDeploy, hr], by simp [PreDeploy, hr], fun _ => by simp [PreDeploy, hr], ?_⟩
    intro err herr
    simp [PreDeploy, hr] at herr
  | some m =>
    refine ⟨by simp [PreDeploy, hr], by simp [PreDeploy, hr], fun hn => by simp at hn, ?_⟩
    intro err herr
    simp only [PreDeploy, hr] at herr
    exact ⟨m, by simpa using herr.symm⟩

/-- Witness for C4: both retrieval and generation fail; the zero-value
certificate is installed and `PreDeploy` still succeeds. -/
theorem PreDeploy_swallows_generate_error_witness :
    (PreDeploy emptyCfg (⟨"", "", ""⟩, some "retrieve failed")
      (⟨"", "", ""⟩, some "generate failed") none).2.TLSCert = "" ∧
    (PreDeploy emptyCfg (⟨"", "", ""⟩, some "retrieve failed")
      (⟨"", "", ""⟩, some "generate failed") none).1 = Except.ok () :=
  ⟨(PreDeploy_swallows_generate_error emptyCfg _ _ none _ _ rfl rfl).1,
   (PreDeploy_swallows_generate_error emptyCfg _ _ none _ _ rfl rfl).2.2.1 rfl⟩

/-- C1: `Ready` polls under a context bounded by the two-minute ceiling
derived from the caller's budget; it returns success exactly when some
in-budget iteration observes the first introspection command succeed with
empty error stream and output containing `running` and then the second
succeed with empty error stream and output containing `complete`; every
other iteration outcome (exec error, non-empty error stream, missing
marker) is retried, and the only error `Ready` returns is the timeout of
that bounded context. -/
theorem Ready_success_and_timeout (caller : Option Nat)
    (oracle : Nat → ExecResult × ExecResult) :
    readyBudget caller ≤ readyTimeout ∧
    (Ready caller oracle = Except.ok () ↔
      ∃ j, j < readyBudget caller ∧ readyIterOk (oracle j).1 (oracle j).2 = true) ∧
    (Ready caller oracle = Except.error ReadyErr.timeout ↔
      ∀ j, j < readyBudget caller → readyIterOk (oracle j).1 (oracle j).2 = false) := by
  unfold Ready
  refine ⟨?_, ?_, ?_⟩
  · cases caller with
    | none => exact Nat.le_refl _
    | some d => exact Nat.min_le_right d _
  · simpa using readyLoop_ok_iff oracle (readyBudget caller) 0
  · have hok := readyLoop_ok_iff oracle (readyBudget caller) 0
    have hdi := readyLoop_dichotomy oracle (readyBudget caller) 0
    constructor
    · intro herr j hj
      by_contra hbad
      have hgood : readyIterOk (oracle j).1 (oracle j).2 = true := by
        revert hbad; cases readyIterOk (oracle j).1 (oracle j).2 <;> simp
      have hok2 := hok.mpr ⟨j, hj, by simpa using hgood⟩
      rw [herr] at hok2
      exact absurd hok2 (by simp)
    · intro hall
      rcases hdi with hok2 | herr
      · exfalso
        obtain ⟨j, hj, hgood⟩ := hok.mp hok2
        have := hall j hj
        simp only [Nat.zero_add] at hgood
        rw [this] at hgood
        exact absurd hgood (by simp)
      · exact herr

/-- Witness for C1: with a five-tick caller budget and an oracle whose very
first iteration reports both markers, `Ready` succeeds. -/
theorem Ready_success_and_timeout_witness :
    Ready (some 5) (fun _ => (⟨"mgmt_server state running", "", false⟩,
      ⟨"commit 1 status complete", "", false⟩)) = Except.ok () :=
  (Ready_success_and_timeout (some 5) (fun _ => (⟨"mgmt_server state running", "", false⟩,
      ⟨"commit 1 status complete", "", false⟩))).2.1.mpr ⟨0, by decide, by decide⟩

/-- C2: `PostDeploy` runs the default bootstrap path exactly when the
startup-config field is empty and no persisted `config/config.json` exists;
when either is present it returns success immediately and issues zero
bootstrap commands.  On the default path, once the readiness gate passes
and the transfer exec does not error, the issued commands include the
transfer of the rendered bootstrap text. -/
theorem PostDeploy_bootstrap_iff (cfg : NodeConfig) (configJsonOnDisk : Bool)
    (caller : Option Nat) (oracle : Nat → ExecResult × ExecResult) (r1 r2 : ExecResult) :
    ((cfg.StartupConfig = "" ∧ configJsonOnDisk = false) →
      PostDeploy cfg configJsonOnDisk caller oracle r1 r2 =
        addDefaultConfig cfg caller oracle r1 r2 ∧
      (Ready caller oracle = Except.ok () → r1.err = false →
        bootstrapWriteCmd cfg ∈ (PostDeploy cfg configJsonOnDisk caller oracle r1 r2).2)) ∧
    ((cfg.StartupConfig ≠ "" ∨ configJsonOnDisk = true) →
      PostDeploy cfg configJsonOnDisk caller oracle r1 r2 = (Except.ok (), [])) := by
  constructor
  · rintro ⟨hs, hd⟩
    have hskip : ¬(cfg.StartupConfig ≠ "" ∨ configJsonOnDisk = true) := by
      simp [hs, hd]
    refine ⟨by rw [PostDeploy, if_neg hskip], ?_⟩
    intro hready hr1
    rw [PostDeploy, if_neg hskip, addDefaultConfig, hready, hr1]
    by_cases h2 : r2.err <;> simp [h2]
  · intro hskip
    rw [PostDeploy, if_pos hskip]

/-- Witness for C2: both the skip branch (startup config present) and the
default-bootstrap branch at concrete inputs. -/
theorem PostDeploy_bootstrap_iff_witness :
    PostDeploy { emptyCfg with StartupConfig := "cfg.json" } false none
        (fun _ => (⟨"", "", false⟩, ⟨"", "", false⟩)) ⟨"", "", false⟩ ⟨"", "", false⟩ =
      (Except.ok (), []) ∧
    bootstrapWriteCmd emptyCfg ∈
      (PostDeploy emptyCfg false none
        (fun _ => (⟨"running", "", false⟩, ⟨"complete", "", false⟩))
        ⟨"", "", false⟩ ⟨"", "", false⟩).2 := by
  constructor
  · exact (PostDeploy_bootstrap_iff { emptyCfg with StartupConfig := "cfg.json" } false none
      (fun _ => (⟨"", "", false⟩, ⟨"", "", false⟩)) ⟨"", "", false⟩ ⟨"", "", false⟩).2
      (Or.inl (by decide))
  · refine ((PostDeploy_bootstrap_iff emptyCfg false none
      (fun _ => (⟨"running", "", false⟩, ⟨"complete", "", false⟩))
      ⟨"", "", false⟩ ⟨"", "", false⟩).1 ⟨rfl, rfl⟩).2 ?_ rfl
    exact (Ready_success_and_timeout none _).2.1.mpr ⟨0, by decide, by decide⟩

/-! ### C8: the randomized base MAC -/

theorem str_ext (s t : String) (h : s.data = t.data) : s = t := by
  cases s; cases t; exact congrArg String.mk h

theorem hexDigit_inj_fin :
    ∀ m n : Fin 16, hexDigit m.val = hexDigit n.val → m = n := by decide

theorem srlMacString_data (b0 b1 : Nat) :
    (srlMacString b0 b1).data =
      '0' :: '2' :: ':' :: hexDigit (b0 / 16) :: hexDigit (b0 % 16) :: ':' ::
      hexDigit (b1 / 16) :: hexDigit (b1 % 16) :: ':' :: '0' :: '0' :: ':' ::
      '0' :: '0' :: ':' :: '0' :: '0' :: [] := rfl

/-- C8: the base MAC written into the generated topology descriptor fixes
its first byte to the locally-administered value `02`, renders the two
random bytes as its second and third bytes, zeroes the last three bytes,
and is injective in the two random bytes: descriptors for different random
draws carry different MACs. -/
theorem generateSRLTopologyFile_mac (b0 b1 : Nat) (h0 : b0 < 256) (h1 : b1 < 256) :
    srlMacString b0 b1 = "02:" ++ (hex2 b0 ++ ":" ++ hex2 b1) ++ ":00:00:00" ∧
    (hex2 b0).data.length = 2 ∧ (hex2 b1).data.length = 2 ∧
    ∀ c0 c1 : Nat, c0 < 256 → c1 < 256 → (b0, b1) ≠ (c0, c1) →
      srlMacString b0 b1 ≠ srlMacString c0 c1 := by
  refine ⟨rfl, rfl, rfl, ?_⟩
  intro c0 c1 hc0 hc1 hne heq
  have hd := congrArg String.data heq
  rw [srlMacString_data, srlMacString_data] at hd
  simp only [List.cons.injEq, eq_self_iff_true, true_and, and_true] at hd
  obtain ⟨h4, h5, h7, h8⟩ := hd
  have e1 : b0 / 16 = c0 / 16 := by
    have := congrArg Fin.val (hexDigit_inj_fin ⟨b0 / 16, by omega⟩ ⟨c0 / 16, by omega⟩ h4)
    simpa using this
  have e2 : b0 % 16 = c0 % 16 := by
    have := congrArg Fin.val (hexDigit_inj_fin ⟨b0 % 16, by omega⟩ ⟨c0 % 16, by omega⟩ h5)
    simpa using this
  have e3 : b1 / 16 = c1 / 16 := by
    have := congrArg Fin.val (hexDigit_inj_fin ⟨b1 / 16, by omega⟩ ⟨c1 / 16, by omega⟩ h7)
    simpa using this
  have e4 : b1 % 16 = c1 % 16 := by
    have := congrArg Fin.val (hexDigit_inj_fin ⟨b1 % 16, by omega⟩ ⟨c1 % 16, by omega⟩ h8)
    simpa using this
  apply hne
  have hb0 : b0 = c0 := by omega
  have hb1 : b1 = c1 := by omega
  rw [hb0, hb1]

/-- Witness for C8 at the concrete random bytes `(3, 250)` and `(4, 250)`. -/
theorem generateSRLTopologyFile_mac_witness :
    srlMacString 3 250 = "02:03:fa:00:00:00" ∧ srlMacString 3 250 ≠ srlMacString 4 250 :=
  ⟨rfl, (generateSRLTopologyFile_mac 3 250 (by decide) (by decide)).2.2.2 4 250
    (by decide) (by decide) (by decide)⟩

/-- C9 (code bug): `addDefaultConfig` transfers the rendered bootstrap text
to the absolute path `/tmp/clab-config`, but the configuration-apply exec
reads from the relative path `tmp/clab-config` — the path the apply step
consumes is not the path the transfer step wrote (they only coincide when
the exec's working directory is the filesystem root). -/
theorem addDefaultConfig_path_mismatch :
    redirTarget ((bootstrapWriteCmd emptyCfg).getD 2 "") = "/tmp/clab-config" ∧
    redirSource (bootstrapApplyCmd.getD 2 "") = "tmp/clab-config" ∧
    redirTarget ((bootstrapWriteCmd emptyCfg).getD 2 "") ≠
      redirSource (bootstrapApplyCmd.getD 2 "") := by
  refine ⟨by decide, by decide, by decide⟩

/-! ### C7: the trust-anchor toggle of the bootstrap command template -/

def cfgInj : NodeConfig :=
  { emptyCfg with
    TLSAnchor := "anchor"
    TLSKey := "K"
    TLSCert := "authenticate-client false" }

/-- C7 counterexample: the claim quantifies over every node config, but the
certificate field is substituted verbatim into the rendered template, so a
config whose certificate text contains the client-authentication-disable
directive renders, with a non-empty trust anchor, an output that contains
both directives — refuting "does not contain the disable directive" and
"never contains both". -/
theorem srlConfigCmds_injection_cex :
    cfgInj.TLSAnchor ≠ "" ∧
    containsStr (srlConfigCmdsRendered cfgInj) "authenticate-client true" = true ∧
    containsStr (srlConfigCmdsRendered cfgInj) "authenticate-client false" = true := by
  refine ⟨by decide, by decide, by decide⟩

theorem srlConfigCmdsRendered_data_anchor (cfg : NodeConfig) (hA : cfg.TLSAnchor ≠ "") :
    (srlConfigCmdsRendered cfg).data =
      ("set / system tls server-profile clab-profile\n" : String).data ++
      (("set / system tls server-profile clab-profile key \"" : String).data ++
      (cfg.TLSKey.data ++
      (("\"\n" : String).data ++
      (("set / system tls server-profile clab-profile certificate \"" : String).data ++
      (cfg.TLSCert.data ++
      (("\"" : String).data ++
      (("\nset / system tls server-profile clab-profile authenticate-client true\n" : String).data ++
      (("set / system tls server-profile clab-profile trust-anchor \"" : String).data ++
      (cfg.TLSAnchor.data ++
      (("\"" : String).data ++
      (("\nset / system gnmi-server admin-state enable network-instance mgmt admin-state enable tls-profile clab-profile\n" : String).data ++
      (("set / system json-rpc-server admin-state enable network-instance mgmt http admin-state enable\n" : String).data ++
      (("set / system json-rpc-server admin-state enable network-instance mgmt https admin-state enable tls-profile clab-profile\n" : String).data ++
      (("set / system lldp admin-state enable\n" : String).data ++
      (("set / system aaa authentication idle-timeout 7200\n" : String).data ++
      ("commit save" : String).data))))))))))))))) := by
  simp only [srlConfigCmdsRendered]
  rw [if_pos hA]
  simp only [str_data_append, List.append_assoc]

theorem srlConfigCmds_anchor_branch (cfg : NodeConfig) (hA : cfg.TLSAnchor ≠ "")
    (hk : containsStr cfg.TLSKey "authenticate-client false" = false)
    (hc : containsStr cfg.TLSCert "authenticate-client false" = false)
    (ha : containsStr cfg.TLSAnchor "authenticate-client false" = false) :
    containsStr (srlConfigCmdsRendered cfg) "authenticate-client true" = true ∧
    containsStr (srlConfigCmdsRendered cfg) "trust-anchor" = true ∧
    containsStr (srlConfigCmdsRendered cfg) "authenticate-client false" = false := by
  have hdata := srlConfigCmdsRendered_data_anchor cfg hA
  unfold containsStr at hk hc ha ⊢
  rw [hdata]
  refine ⟨?_, ?_, ?_⟩
  · -- the enable directive comes from the fixed if-branch text
    apply contains_append_right
    apply contains_append_right
    apply contains_append_right
    apply contains_append_right
    apply contains_append_right
    apply contains_append_right
    apply contains_append_right
    exact contains_append_left _ _ _ (by decide)
  · -- so does the trust-anchor directive
    apply contains_append_right
    apply contains_append_right
    apply contains_append_right
    apply contains_append_right
    apply contains_append_right
    apply contains_append_right
    apply contains_append_right
    apply contains_append_right
    exact contains_append_left _ _ _ (by decide)
  · refine Bool.eq_false_iff.mpr fun h => ?_
    rcases contains_split_last _ _ _ '\n' (by decide) (by decide) h with h | h
    · exact absurd h (by decide)
    rcases contains_split_last _ _ _ '"' (by decide) (by decide) h with h | h
    · exact absurd h (by decide)
    rcases contains_split_head _ _ _ '"' (by decide)
      (by rw [head?_append_ne _ _ (by decide)]; decide) h with h | h
    · rw [hk] at h; simp at h
    rcases contains_split_last _ _ _ '\n' (by decide) (by decide) h with h | h
    · exact absurd h (by decide)
    rcases contains_split_last _ _ _ '"' (by decide) (by decide) h with h | h
    · exact absurd h (by decide)
    rcases contains_split_head _ _ _ '"' (by decide)
      (by rw [head?_append_ne _ _ (by decide)]; decide) h with h | h
    · rw [hc] at h; simp at h
    rcases contains_split_last _ _ _ '"' (by decide) (by decide) h with h | h
    · exact absurd h (by decide)
    rcases contains_split_last _ _ _ '\n' (by decide) (by decide) h with h | h
    · exact absurd h (by decide)
    rcases contains_split_last _ _ _ '"' (by decide) (by decide) h with h | h
    · exact absurd h (by decide)
    rcases contains_split_head _ _ _ '"' (by decide)
      (by rw [head?_append_ne _ _ (by decide)]; decide) h with h | h
    · rw [ha] at h; simp at h
    · exact absurd h (by decide)

theorem srlConfigCmdsRendered_data_noanchor (cfg : NodeConfig) (hA : cfg.TLSAnchor = "") :
    (srlConfigCmdsRendered cfg).data =
      ("set / system tls server-profile clab-profile\n" : String).data ++
      (("set / system tls server-profile clab-profile key \"" : String).data ++
      (cfg.TLSKey.data ++
      (("\"\n" : String).data ++
      (("set / system tls server-profile clab-profile certificate \"" : String).data ++
      (cfg.TLSCert.data ++
      (("\"" : String).data ++
      (("\nset / system tls server-profile clab-profile authenticate-client false" : String).data ++
      (("\nset / system gnmi-server admin-state enable network-instance mgmt admin-state enable tls-profile clab-profile\n" : String).data ++
      (("set / system json-rpc-server admin-state enable network-instance mgmt http admin-state enable\n" : String).data ++
      (("set / system json-rpc-server admin-state enable network-instance mgmt https admin-state enable tls-profile clab-profile\n" : String).data ++
      (("set / system lldp admin-state enable\n" : String).data ++
      (("set / system aaa authentication idle-timeout 7200\n" : String).data ++
      ("commit save" : String).data)))))))))))) := by
  simp only [srlConfigCmdsRendered]
  rw [if_neg (fun hne => hne hA)]
  simp only [str_data_append, List.append_assoc]

theorem srlConfigCmds_noanchor_branch (cfg : NodeConfig) (hA : cfg.TLSAnchor = "")
    (hk : containsStr cfg.TLSKey "authenticate-client true" = false)
    (hc : containsStr cfg.TLSCert "authenticate-client true" = false) :
    containsStr (srlConfigCmdsRendered cfg) "authenticate-client false" = true ∧
    containsStr (srlConfigCmdsRendered cfg) "authenticate-client true" = false := by
  have hdata := srlConfigCmdsRendered_data_noanchor cfg hA
  unfold containsStr at hk hc ⊢
  rw [hdata]
  constructor
  · -- the disable directive comes from the fixed else-branch text
    apply contains_append_right
    apply contains_append_right
    apply contains_append_right
    apply contains_append_right
    apply contains_append_right
    apply contains_append_right
    apply contains_append_right
    exact contains_append_left _ _ _ (by decide)
  · refine Bool.eq_false_iff.mpr fun h => ?_
    rcases contains_split_last _ _ _ '\n' (by decide) (by decide) h with h | h
    · exact absurd h (by decide)
    rcases contains_split_last _ _ _ '"' (by decide) (by decide) h with h | h
    · exact absurd h (by decide)
    rcases contains_split_head _ _ _ '"' (by decide)
      (by rw [head?_append_ne _ _ (by decide)]; decide) h with h | h
    · rw [hk] at h; simp at h
    rcases contains_split_last _ _ _ '\n' (by decide) (by decide) h with h | h
    · exact absurd h (by decide)
    rcases contains_split_last _ _ _ '"' (by decide) (by decide) h with h | h
    · exact absurd h (by decide)
    rcases contains_split_head _ _ _ '"' (by decide)
      (by rw [head?_append_ne _ _ (by decide)]; decide) h with h | h
    · rw [hc] at h; simp at h
    · exact absurd h (by decide)

/-- C7 (amended): for configs whose key, certificate and trust-anchor
fields do not themselves contain an authenticate-client directive (the
counterexample shows the unrestricted claim fails under such injection),
the rendered bootstrap template contains the client-authentication-enable
directive and the trust-anchor directive and not the disable directive
exactly when the trust-anchor field is non-empty, contains the disable and
not the enable directive when it is empty, and never contains both. -/
theorem srlConfigCmds_trust_anchor_toggle (cfg : NodeConfig)
    (hkT : containsStr cfg.TLSKey "authenticate-client true" = false)
    (hkF : containsStr cfg.TLSKey "authenticate-client false" = false)
    (hcT : containsStr cfg.TLSCert "authenticate-client true" = false)
    (hcF : containsStr cfg.TLSCert "authenticate-client false" = false)
    (haF : containsStr cfg.TLSAnchor "authenticate-client false" = false) :
    (cfg.TLSAnchor ≠ "" →
      containsStr (srlConfigCmdsRendered cfg) "authenticate-client true" = true ∧
      containsStr (srlConfigCmdsRendered cfg) "trust-anchor" = true ∧
      containsStr (srlConfigCmdsRendered cfg) "authenticate-client false" = false) ∧
    (cfg.TLSAnchor = "" →
      containsStr (srlConfigCmdsRendered cfg) "authenticate-client false" = true ∧
      containsStr (srlConfigCmdsRendered cfg) "authenticate-client true" = false) ∧
    ¬(containsStr (srlConfigCmdsRendered cfg) "authenticate-client true" = true ∧
      containsStr (srlConfigCmdsRendered cfg) "authenticate-client false" = true) := by
  refine ⟨fun hA => srlConfigCmds_anchor_branch cfg hA hkF hcF haF,
    fun hA => srlConfigCmds_noanchor_branch cfg hA hkT hcT, ?_⟩
  rintro ⟨hT, hF⟩
  by_cases hA : cfg.TLSAnchor = ""
  · have := (srlConfigCmds_noanchor_branch cfg hA hkT hcT).2
    rw [hT] at this
    exact absurd this (by decide)
  · have := (srlConfigCmds_anchor_branch cfg hA hkF hcF haF).2.2
    rw [hF] at this
    exact absurd this (by decide)

def cfgTglW : NodeConfig :=
  { emptyCfg with
    TLSAnchor := "ANCHOR"
    TLSKey := "KEY"
    TLSCert := "CERT" }

/-- Witness for the amended C7 at a concrete injection-free config with a
trust anchor. -/
theorem srlConfigCmds_trust_anchor_toggle_witness :
    containsStr (srlConfigCmdsRendered cfgTglW) "authenticate-client true" = true ∧
    containsStr (srlConfigCmdsRendered cfgTglW) "authenticate-client false" = false :=
  ⟨((srlConfigCmds_trust_anchor_toggle cfgTglW (by decide) (by decide) (by decide)
      (by decide) (by decide)).1 (by decide)).1,
   ((srlConfigCmds_trust_anchor_toggle cfgTglW (by decide) (by decide) (by decide)
      (by decide) (by decide)).1 (by decide)).2.2⟩
